import Mathlib

/-!
# Verification of the predictive climate-control core (homebridge-melcloud-control)

Shallow embedding, over `ℚ`, of the decision engine of the repository:

* `src/src/deviceata/predictive/setpoint-calculator.js` — `SetpointCalculator`
* `src/src/deviceata/predictive/constants.js` — algorithm constants
* the HVAC `StateMachine` (`state-machine.js`)
* `ExternalSensor` compensation / offset maintenance (`external-sensor.js`)
* `ActionExecutor` rate limiting (`action-executor.js`)
* `PredictiveController.getSeasonMode` (`predictive/index.js`)

Temperatures are rationals; timestamps are integers (milliseconds, as in
JavaScript `Date.now()`); nullable JavaScript values are `Option`s.
The single transcendental ingredient of the source, the exponential decay
weight `Math.exp(-i / DECAY_CONSTANT)` of the forecast layer, is kept as an
explicit function parameter `w : ℕ → ℚ`: every theorem below that quantifies
over `w` in particular holds for the true exponential weights.
-/

namespace MelPredict

/-- JavaScript `Math.round` on rationals: round half toward positive infinity
(`Math.round x = ⌊x + 0.5⌋` for every finite JS number). -/
def jsRound (x : ℚ) : ℤ := ⌊x + 1 / 2⌋

/-- The source idiom `Math.round(x * 2) / 2`: rounding to 0.5 °C steps. -/
def roundHalf (x : ℚ) : ℚ := (jsRound (x * 2) : ℚ) / 2

/-- The source idiom `Math.max(lo, Math.min(hi, x))`. -/
def clampQ (lo hi x : ℚ) : ℚ := max lo (min hi x)

/-! ## Constants (`predictive/constants.js`) -/


/-- `SeasonMode` (`predictive/constants.js`): `'winter' | 'summer'`. -/
inductive SeasonMode
  | winter
  | summer
deriving DecidableEq, Repr

/-- `PredictiveDefaults.OUTDOOR_RESET_SLOPE = 0.4`. -/
def OUTDOOR_RESET_SLOPE : ℚ := 2 / 5

/-- `PredictiveDefaults.FORECAST_HORIZON = 24`. -/
def FORECAST_HORIZON : ℕ := 24

/-- `PredictiveDefaults.SOLAR_REDUCTION_THRESHOLD = 200`. -/
def SOLAR_REDUCTION_THRESHOLD : ℚ := 200

/-- `PredictiveDefaults.COLD_SNAP_THRESHOLD = 5`. -/
def COLD_SNAP_THRESHOLD : ℚ := 5

/-- `PredictiveDefaults.HEATWAVE_THRESHOLD = 30`. -/
def HEATWAVE_THRESHOLD : ℚ := 30

/-! ## Setpoint calculator (`predictive/setpoint-calculator.js`)

The calculator object carries `outdoorResetSlope`, `decayConstant` and
`forecastHorizon` initialized from `PredictiveDefaults`; we embed the
default-configured calculator (the only configuration the repository builds).
-/


/-- Input record of `SetpointCalculator.calculateSetpoint` (a `ControlContext`). -/
structure CalcParams where
  userComfortTarget : ℚ
  currentIndoorTemp : Option ℚ
  currentOutdoorTemp : Option ℚ
  forecastTemps : List ℚ
  forecastSolar : List ℚ
  seasonMode : SeasonMode
deriving DecidableEq, Repr

/-- The `components` record of the returned `PredictionResult`. -/
structure Components where
  base : ℚ
  outdoorReset : ℚ
  forecastAdjustment : ℚ
  solarOffset : ℚ
  errorCorrection : ℚ
  coldWeatherBoost : ℚ
deriving DecidableEq, Repr

/-- `PredictionResult` (without the diagnostic `reason` string). -/
structure PredictionResult where
  predictedRoomTarget : ℚ
  components : Components
deriving DecidableEq, Repr

/-- `SetpointCalculator._calculateOutdoorResetCurve`. -/
def calculateOutdoorResetCurve (outdoorTemp : ℚ) (seasonMode : SeasonMode) : ℚ :=
  let designOutdoorTemp : ℚ := if seasonMode = SeasonMode.winter then 10 else 25
  let tempDiff := designOutdoorTemp - outdoorTemp
  let offset := OUTDOOR_RESET_SLOPE * tempDiff
  clampQ (-2) 2 offset

/-- `SetpointCalculator._calculateForecastAdjustment`.  The loop
`for (i = 0; i < min(len, horizon); i++)` accumulating
`forecastTemps[i] * exp(-i/τ)` becomes sums over `List.range`; `w i` stands
for `Math.exp(-i / this.decayConstant)`. -/
def calculateForecastAdjustment (w : ℕ → ℚ) (forecastTemps : List ℚ)
    (currentOutdoorTemp : Option ℚ) (seasonMode : SeasonMode) : ℚ :=
  match currentOutdoorTemp with
  | none => 0
  | some cur =>
    if forecastTemps.length = 0 then 0
    else
      let n := min forecastTemps.length FORECAST_HORIZON
      let weightedSum := ((List.range n).map (fun i => forecastTemps.getD i 0 * w i)).sum
      let totalWeight := ((List.range n).map w).sum
      let weightedFutureTemp := if 0 < totalWeight then weightedSum / totalWeight else cur
      let expectedChange := weightedFutureTemp - cur
      let adjustment := (3 / 10) * expectedChange
      let adjustment := if seasonMode = SeasonMode.winter then -adjustment else adjustment
      clampQ (-1) 1 adjustment

/-- `SetpointCalculator._calculateSolarGainOffset`. -/
def calculateSolarGainOffset (forecastSolar : List ℚ) : ℚ :=
  let next6Hours := forecastSolar.take 6
  if next6Hours.length = 0 then 0
  else
    let avgSolar := next6Hours.sum / (next6Hours.length : ℚ)
    if SOLAR_REDUCTION_THRESHOLD < avgSolar then
      let reduction := (1 / 50) * (avgSolar - SOLAR_REDUCTION_THRESHOLD)
      max (-2) (-reduction)
    else 0

/-- `SetpointCalculator._calculateErrorCorrection` (`Kp = 0.3`). -/
def calculateErrorCorrection (targetTemp currentTemp : ℚ) : ℚ :=
  let error := targetTemp - currentTemp
  let correction := (3 / 10) * error
  clampQ (-1) 1 correction

/-- Minimum of a nonempty list, the JS `Math.min(...arr)`; `Math.min()` of an
empty spread is `Infinity`, but the source only applies it to nonempty slices,
for which this matches. -/
def listMinQ : List ℚ → ℚ
  | [] => 0
  | x :: xs => xs.foldl min x

/-- Maximum of a nonempty list, the JS `Math.max(...arr)`. -/
def listMaxQ : List ℚ → ℚ
  | [] => 0
  | x :: xs => xs.foldl max x

/-- `SetpointCalculator._calculateColdWeatherBoost`. -/
def calculateColdWeatherBoost (outdoorTemp : ℚ) (forecastTemps : List ℚ) : ℚ :=
  let boost : ℚ :=
    if outdoorTemp < -5 then 3
    else if outdoorTemp < 0 then 2
    else if outdoorTemp < 5 then 1
    else 0
  if forecastTemps.length = 0 then boost
  else
    let minForecast := listMinQ (forecastTemps.take 24)
    if minForecast < -5 ∧ boost < 3 then max boost 2
    else if minForecast < 0 ∧ boost < 2 then max boost 1
    else boost

/-- Layer 1 contribution inside `calculateSetpoint`: applied only when
`currentOutdoorTemp !== null`. -/
def outdoorResetComponent (p : CalcParams) : ℚ :=
  match p.currentOutdoorTemp with
  | some t => calculateOutdoorResetCurve t p.seasonMode
  | none => 0

/-- Layer 2 contribution inside `calculateSetpoint`: applied only when
`forecastTemps.length > 0`. -/
def forecastAdjustmentComponent (w : ℕ → ℚ) (p : CalcParams) : ℚ :=
  if 0 < p.forecastTemps.length then
    calculateForecastAdjustment w p.forecastTemps p.currentOutdoorTemp p.seasonMode
  else 0

/-- Layer 3 contribution inside `calculateSetpoint`: winter only, and only when
`forecastSolar.length > 0`. -/
def solarOffsetComponent (p : CalcParams) : ℚ :=
  if p.seasonMode = SeasonMode.winter ∧ 0 < p.forecastSolar.length then
    calculateSolarGainOffset p.forecastSolar
  else 0

/-- Layer 4 contribution inside `calculateSetpoint`: applied only when
`currentIndoorTemp !== null`. -/
def errorCorrectionComponent (p : CalcParams) : ℚ :=
  match p.currentIndoorTemp with
  | some t => calculateErrorCorrection p.userComfortTarget t
  | none => 0

/-- Layer 5 contribution inside `calculateSetpoint`: winter only, and only when
`currentOutdoorTemp !== null`. -/
def coldWeatherBoostComponent (p : CalcParams) : ℚ :=
  if p.seasonMode = SeasonMode.winter then
    match p.currentOutdoorTemp with
    | some t => calculateColdWeatherBoost t p.forecastTemps
    | none => 0
  else 0

/-- The additive sum of the base target and the five layers, i.e. the value of
the local `predictedRoomTarget` just before the season-specific deviation
clamps of `calculateSetpoint`. -/
def layerSum (w : ℕ → ℚ) (p : CalcParams) : ℚ :=
  p.userComfortTarget + outdoorResetComponent p + forecastAdjustmentComponent w p +
    solarOffsetComponent p + errorCorrectionComponent p + coldWeatherBoostComponent p

/-- `currentOutdoorTemp !== null && currentOutdoorTemp < 0`. -/
def outdoorBelowZero (p : CalcParams) : Bool :=
  match p.currentOutdoorTemp with
  | some t => decide (t < 0)
  | none => false

/-- The `maxPositiveDeviation` local of `calculateSetpoint`: `2.0`, widened to
`4.0` in winter when the outdoor temperature is strictly below 0 °C. -/
def maxPositiveDeviation (p : CalcParams) : ℚ :=
  if p.seasonMode = SeasonMode.winter ∧ outdoorBelowZero p then 4 else 2

/-- The season-specific deviation clamps of `calculateSetpoint`
(`maxNegativeDeviation = 2.0`; note the source has no lower clamp in summer). -/
def clampedTarget (w : ℕ → ℚ) (p : CalcParams) : ℚ :=
  let s := layerSum w p
  if p.seasonMode = SeasonMode.winter ∧ s < p.userComfortTarget - 2 then
    p.userComfortTarget - 2
  else if p.seasonMode = SeasonMode.winter ∧ p.userComfortTarget + maxPositiveDeviation p < s then
    p.userComfortTarget + maxPositiveDeviation p
  else if p.seasonMode = SeasonMode.summer ∧ p.userComfortTarget + maxPositiveDeviation p < s then
    p.userComfortTarget + maxPositiveDeviation p
  else s

/-- `SetpointCalculator.calculateSetpoint`: the layer sum, the deviation
clamps, the final clamp to `[16, 30]` (`minTarget`/`maxTarget`), and rounding
to 0.5 °C steps. -/
def calculateSetpoint (w : ℕ → ℚ) (p : CalcParams) : PredictionResult :=
  { predictedRoomTarget := roundHalf (clampQ 16 30 (clampedTarget w p))
    components :=
      { base := p.userComfortTarget
        outdoorReset := outdoorResetComponent p
        forecastAdjustment := forecastAdjustmentComponent w p
        solarOffset := solarOffsetComponent p
        errorCorrection := errorCorrectionComponent p
        coldWeatherBoost := coldWeatherBoostComponent p } }

/-- Hot summer afternoon context: user target 24 °C, room 30 °C, outdoor
40 °C, no forecast data.  With an empty `forecastTemps` the forecast layer is
skipped, so the weight function is irrelevant (`fun _ => 1` is passed merely to
instantiate it). -/
def summerHotContext : CalcParams :=
  { userComfortTarget := 24, currentIndoorTemp := some 30, currentOutdoorTemp := some 40,
    forecastTemps := [], forecastSolar := [], seasonMode := SeasonMode.summer }

/-! ## HVAC state machine (`state-machine.js`)

The `StateMachine` class is embedded as a record that `processUpdate` threads
explicitly.  `Date.now()` becomes a `now : ℤ` argument (milliseconds); the
single tick uses one timestamp, as the source's two `Date.now()` calls within
one synchronous `processUpdate` invocation are indistinguishable for the
properties below.  `emit('stateChange', …)` becomes a returned list of events.
The numeric suffix interpolated into some diagnostic reason strings
(`deviation.toFixed(1)`) is omitted; no property below inspects those strings
beyond the literal blocked-transition message. -/


/-- `States` (`predictive/constants.js`). -/
inductive HVACState
  | STANDBY
  | PRE_HEAT
  | PRE_COOL
  | HEATING_ACTIVE
  | COOLING_ACTIVE
  | HEATING_COAST
  | COOLING_COAST
  | SENSOR_FAULT
deriving DecidableEq, Repr

open HVACState

/-- `StateMachine._isActiveState`. -/
def isActiveState (s : HVACState) : Bool :=
  s = HEATING_ACTIVE ∨ s = COOLING_ACTIVE ∨ s = PRE_HEAT ∨ s = PRE_COOL

/-- `StateMachine._isHeatingState`. -/
def isHeatingState (s : HVACState) : Bool :=
  s = HEATING_ACTIVE ∨ s = PRE_HEAT ∨ s = HEATING_COAST

/-- `StateMachine._isCoolingState`. -/
def isCoolingState (s : HVACState) : Bool :=
  s = COOLING_ACTIVE ∨ s = PRE_COOL ∨ s = COOLING_COAST

/-- The `timers` record: `lastOnTime`, `lastOffTime`, `lastModeSwitch`
(nullable millisecond timestamps). -/
structure Timers where
  lastOnTime : Option ℤ
  lastOffTime : Option ℤ
  lastModeSwitch : Option ℤ
deriving DecidableEq, Repr

/-- The `config` record; the constructor populates it from `AntiOscillation`
with second → millisecond conversion. -/
structure SMConfig where
  deadband : ℚ
  hysteresis : ℚ
  minOnTime : ℤ
  minOffTime : ℤ
  minModeSwitch : ℤ
deriving DecidableEq, Repr

/-- Default configuration: `DEADBAND = 4.0`, `HYSTERESIS = 2.0`,
`MIN_ON_TIME = 300 s`, `MIN_OFF_TIME = 180 s`, `MIN_MODE_SWITCH = 600 s`,
times stored in milliseconds. -/
def defaultSMConfig : SMConfig :=
  { deadband := 4, hysteresis := 2, minOnTime := 300 * 1000,
    minOffTime := 180 * 1000, minModeSwitch := 600 * 1000 }

/-- One entry of `stateHistory`. -/
structure HistoryEntry where
  fromState : HVACState
  toState : HVACState
  timestamp : ℤ
  reason : String
deriving DecidableEq, Repr

/-- `this.maxHistoryLength = 50`. -/
def maxHistoryLength : ℕ := 50

/-- The mutable fields of the `StateMachine` class. -/
structure StateMachine where
  currentState : HVACState
  previousState : Option HVACState
  stateEnteredAt : ℤ
  stateHistory : List HistoryEntry
  timers : Timers
  config : SMConfig
deriving DecidableEq, Repr

/-- The `action` objects produced by `_getActionForState`
(`{type:'setMode', mode, setpoint}` and `{type:'coast', setpoint}`). -/
inductive HVACAction
  | setMode (mode : String) (setpoint : ℚ)
  | coast (setpoint : ℚ)
deriving DecidableEq, Repr

/-- The `{state, action, reason}` record returned by `processUpdate`. -/
structure Decision where
  state : HVACState
  action : Option HVACAction
  reason : String
deriving DecidableEq, Repr

/-- The payload of an emitted `stateChange` event. -/
structure StateChangeEvent where
  oldState : HVACState
  newState : HVACState
  action : Option HVACAction
  reason : String
deriving DecidableEq, Repr

/-- An hour of `forecast.hourly` as consumed by the detectors (only the
`temperature` field is read; it may be null). -/
structure HourlySample where
  temperature : Option ℚ
deriving DecidableEq, Repr

/-- The forecast object handed to `processUpdate` (nullable). -/
structure Forecast where
  hourly : List HourlySample
deriving DecidableEq, Repr

/-- `StateMachine._detectColdSnap`: requires ≥ 24 non-null samples, a drop of
≥ `COLD_SNAP_THRESHOLD` from `temps[0]` to the 48-hour minimum, and that
minimum 13–36 hours away. -/
def detectColdSnap (forecast : Option Forecast) : Option (ℕ × ℚ × ℚ) :=
  match forecast with
  | none => none
  | some f =>
    if f.hourly.length = 0 then none
    else
      let temps := (f.hourly.map (·.temperature)).reduceOption
      if temps.length < 24 then none
      else
        let current := temps.headI
        let min48h := listMinQ (temps.take 48)
        let drop := current - min48h
        if COLD_SNAP_THRESHOLD ≤ drop then
          let hoursUntil := temps.findIdx (fun t => t = min48h)
          if 12 < hoursUntil ∧ hoursUntil ≤ 36 then some (hoursUntil, drop, min48h)
          else none
        else none

/-- `StateMachine._detectHeatwave`: requires ≥ 24 non-null samples and a
48-hour maximum of at least `HEATWAVE_THRESHOLD`. -/
def detectHeatwave (forecast : Option Forecast) : Option (ℕ × ℚ) :=
  match forecast with
  | none => none
  | some f =>
    if f.hourly.length = 0 then none
    else
      let temps := (f.hourly.map (·.temperature)).reduceOption
      if temps.length < 24 then none
      else
        let max48h := listMaxQ (temps.take 48)
        if HEATWAVE_THRESHOLD ≤ max48h then
          some (temps.findIdx (fun t => t = max48h), max48h)
        else none

/-- `StateMachine._determineDesiredState`. -/
def determineDesiredState (m : StateMachine) (deviation halfDeadband : ℚ)
    (seasonMode : SeasonMode) (forecast : Option Forecast) : HVACState :=
  let anticipatory : Option HVACState :=
    match forecast with
    | none => none
    | some f =>
      let coldSnap := detectColdSnap (some f)
      let heatwave := detectHeatwave (some f)
      if coldSnap.isSome ∧ seasonMode = SeasonMode.winter ∧
          isHeatingState m.currentState = false then
        some PRE_HEAT
      else if heatwave.isSome ∧ seasonMode = SeasonMode.summer ∧
          isCoolingState m.currentState = false then
        some PRE_COOL
      else none
  match anticipatory with
  | some s => s
  | none =>
    if seasonMode = SeasonMode.winter then
      if deviation < -m.config.hysteresis then HEATING_ACTIVE
      else if halfDeadband < deviation then
        (if isHeatingState m.currentState then HEATING_COAST else STANDBY)
      else if m.currentState = HEATING_COAST ∧ -(1/2 : ℚ) < deviation then STANDBY
      else m.currentState
    else
      if m.config.hysteresis < deviation then COOLING_ACTIVE
      else if deviation < -halfDeadband then
        (if isCoolingState m.currentState then COOLING_COAST else STANDBY)
      else if m.currentState = COOLING_COAST ∧ deviation < (1/2 : ℚ) then STANDBY
      else m.currentState

/-- First check of `StateMachine._canTransitionTo`: leaving an active state
requires the minimum on-time to have elapsed.  A `null` timer never blocks
(the JS truthiness test on the timestamp). -/
def minOnGuard (m : StateMachine) (now : ℤ) (newState : HVACState) : Bool :=
  if isActiveState m.currentState && !isActiveState newState then
    match m.timers.lastOnTime with
    | some t => decide (m.config.minOnTime ≤ now - t)
    | none => true
  else true

/-- Second check of `StateMachine._canTransitionTo`: entering an active state
requires the minimum off-time to have elapsed. -/
def minOffGuard (m : StateMachine) (now : ℤ) (newState : HVACState) : Bool :=
  if !isActiveState m.currentState && isActiveState newState then
    match m.timers.lastOffTime with
    | some t => decide (m.config.minOffTime ≤ now - t)
    | none => true
  else true

/-- Third check of `StateMachine._canTransitionTo`: a heating↔cooling family
swap requires the minimum mode-switch time to have elapsed. -/
def modeSwitchGuard (m : StateMachine) (now : ℤ) (newState : HVACState) : Bool :=
  if (isHeatingState m.currentState && isCoolingState newState) ||
      (isCoolingState m.currentState && isHeatingState newState) then
    match m.timers.lastModeSwitch with
    | some t => decide (m.config.minModeSwitch ≤ now - t)
    | none => true
  else true

/-- `StateMachine._canTransitionTo` (anti-oscillation guards): the conjunction
of the three sequential early-return checks of the source. -/
def canTransitionTo (m : StateMachine) (now : ℤ) (newState : HVACState) : Bool :=
  minOnGuard m now newState && minOffGuard m now newState && modeSwitchGuard m now newState

/-- `StateMachine._transitionTo`: updates the timers, the state, the bounded
history, and emits one `stateChange` event. -/
def transitionTo (m : StateMachine) (now : ℤ) (newState : HVACState)
    (action : Option HVACAction) (reason : String) :
    Decision × StateMachine × List StateChangeEvent :=
  let oldState := m.currentState
  let t1 :=
    if isActiveState oldState && !isActiveState newState then
      { m.timers with lastOffTime := some now }
    else m.timers
  let t2 :=
    if !isActiveState oldState && isActiveState newState then
      { t1 with lastOnTime := some now }
    else t1
  let t3 :=
    if (isHeatingState oldState && isCoolingState newState) ||
        (isCoolingState oldState && isHeatingState newState) then
      { t2 with lastModeSwitch := some now }
    else t2
  let pushed := m.stateHistory ++
    [{ fromState := oldState, toState := newState, timestamp := now, reason := reason }]
  let trimmed := if maxHistoryLength < pushed.length then pushed.drop 1 else pushed
  ({ state := newState, action := action, reason := reason },
   { m with
      previousState := some m.currentState
      currentState := newState
      stateEnteredAt := now
      stateHistory := trimmed
      timers := t3 },
   [{ oldState := oldState, newState := newState, action := action, reason := reason }])

/-- `StateMachine._getActionForState`. -/
def getActionForState (state : HVACState) (predictedSetpoint : ℚ) : Option HVACAction :=
  match state with
  | HEATING_ACTIVE | PRE_HEAT => some (HVACAction.setMode "heat" predictedSetpoint)
  | COOLING_ACTIVE | PRE_COOL => some (HVACAction.setMode "cool" predictedSetpoint)
  | STANDBY | HEATING_COAST | COOLING_COAST => some (HVACAction.coast predictedSetpoint)
  | SENSOR_FAULT => none

/-- `StateMachine._getReasonForTransition` (numeric deviation suffix omitted). -/
def getReasonForTransition (toState : HVACState) : String :=
  match toState with
  | HEATING_ACTIVE => "Starting heating - room too cold"
  | COOLING_ACTIVE => "Starting cooling - room too hot"
  | PRE_HEAT => "Pre-heating - cold snap approaching"
  | PRE_COOL => "Pre-cooling - heatwave approaching"
  | HEATING_COAST => "Coasting - target reached"
  | COOLING_COAST => "Coasting - target reached"
  | STANDBY => "Standby - temperature in comfort band"
  | SENSOR_FAULT => "Sensor fault - no temperature data"

/-- The parameter record of `processUpdate`. -/
structure UpdateParams where
  currentTemp : Option ℚ
  targetTemp : ℚ
  predictedSetpoint : ℚ
  seasonMode : SeasonMode
  forecast : Option Forecast
  acPowerState : Bool
deriving DecidableEq, Repr

/-- `StateMachine.processUpdate`. -/
def processUpdate (m : StateMachine) (now : ℤ) (p : UpdateParams) :
    Decision × StateMachine × List StateChangeEvent :=
  match p.currentTemp with
  | none =>
    transitionTo m now SENSOR_FAULT none "External temperature sensor unavailable"
  | some currentTemp =>
    let deviation := currentTemp - p.targetTemp
    let halfDeadband := m.config.deadband / 2
    let desiredState := determineDesiredState m deviation halfDeadband p.seasonMode p.forecast
    if desiredState ≠ m.currentState then
      if canTransitionTo m now desiredState = false then
        ({ state := m.currentState, action := none,
           reason := "Transition blocked by anti-oscillation timer" }, m, [])
      else
        transitionTo m now desiredState (getActionForState desiredState p.predictedSetpoint)
          (getReasonForTransition desiredState)
    else
      ({ state := m.currentState, action := none, reason := "Maintaining current state" }, m, [])

open HVACState

/-! ## Guard characterisation and the state-machine claims -/


/-- The anti-oscillation guard conditions as the spec states them: leaving an
active state needs `now − lastOnAt ≥ MIN_ON`, entering an active state needs
`now − lastOffAt ≥ MIN_OFF`, a heating↔cooling family swap needs
`now − lastModeSwitchAt ≥ MIN_MODE_SWITCH` (an unset timer never blocks). -/
def guardsOk (m : StateMachine) (now : ℤ) (newState : HVACState) : Prop :=
  (isActiveState m.currentState = true → isActiveState newState = false →
    ∀ t, m.timers.lastOnTime = some t → m.config.minOnTime ≤ now - t) ∧
  (isActiveState m.currentState = false → isActiveState newState = true →
    ∀ t, m.timers.lastOffTime = some t → m.config.minOffTime ≤ now - t) ∧
  ((isHeatingState m.currentState = true ∧ isCoolingState newState = true) ∨
    (isCoolingState m.currentState = true ∧ isHeatingState newState = true) →
    ∀ t, m.timers.lastModeSwitch = some t → m.config.minModeSwitch ≤ now - t)

open HVACState

/-- Machine used as the C2 witness: it sits in an active state with all
timers freshly set, so any guarded transition would be blocked — yet the
sensor-fault transition goes through. -/
def activeBlockedMachine : StateMachine :=
  { currentState := HEATING_ACTIVE, previousState := none, stateEnteredAt := 0,
    stateHistory := [],
    timers := { lastOnTime := some 0, lastOffTime := some 0, lastModeSwitch := some 0 },
    config := defaultSMConfig }

/-- Tick parameters with a null room temperature. -/
def faultTickParams : UpdateParams :=
  { currentTemp := none, targetTemp := 23, predictedSetpoint := 24,
    seasonMode := SeasonMode.winter, forecast := none, acPowerState := true }

open HVACState

/-- Machine used as the C3 witness: standby, with no timers set. -/
def standbyMachine : StateMachine :=
  { currentState := STANDBY, previousState := none, stateEnteredAt := 0,
    stateHistory := [],
    timers := { lastOnTime := none, lastOffTime := none, lastModeSwitch := none },
    config := defaultSMConfig }

/-- Tick parameters used as the C3 witness: a cold winter room (20 °C against
a 23 °C target, deviation −3 beyond the −2 hysteresis). -/
def coldTickParams : UpdateParams :=
  { currentTemp := some 20, targetTemp := 23, predictedSetpoint := 25,
    seasonMode := SeasonMode.winter, forecast := none, acPowerState := false }

/-- Machine used as the C10 witness: already in `SENSOR_FAULT`, with one prior
history entry. -/
def faultedMachine : StateMachine :=
  { currentState := SENSOR_FAULT, previousState := some STANDBY, stateEnteredAt := 500,
    stateHistory := [{ fromState := STANDBY, toState := SENSOR_FAULT, timestamp := 500,
                       reason := "External temperature sensor unavailable" }],
    timers := { lastOnTime := none, lastOffTime := none, lastModeSwitch := none },
    config := defaultSMConfig }

/-! ## External sensor compensation (`deviceata/external-sensor.js`)

The `ExternalSensor` methods read and write fields of the owning `DeviceAta`;
those fields form the `CompDevice` record.  `deviceData?.Device?.RoomTemperature`
becomes `acRoomTemperature`; the truthiness of `deviceData?.Device` becomes
`hasDeviceData`.  Each `await melCloudAta.send(...)` is reported as a `true`
dispatch flag (sends are assumed to succeed). -/


/-- The `DeviceAta` fields touched by the compensation logic. -/
structure CompDevice where
  compensationEnabled : Bool
  externalSensorEnabled : Bool
  externalTemperature : Option ℚ
  temperatureOffset : ℚ
  hysteresis : ℚ
  minTempCoolDryAuto : Option ℚ
  maxTempHeat : Option ℚ
  userTargetTemperature : Option ℚ
  lastCompensatedTarget : Option ℚ
  acRoomTemperature : Option ℚ
  hasDeviceData : Bool
deriving DecidableEq, Repr

/-- `this.hysteresis = 0.5` in the `DeviceAta` constructor
(`deviceata/index.js`, line 49). -/
def deviceHysteresis : ℚ := 1 / 2

/-- `ExternalSensor.getCompensatedTargetTemperature`. -/
def getCompensatedTargetTemperature (d : CompDevice) (userTarget : ℚ) : ℚ :=
  if d.compensationEnabled = false ∨ d.externalSensorEnabled = false then userTarget
  else if d.externalTemperature = none ∨ |d.temperatureOffset| < d.hysteresis then userTarget
  else
    let compensated := userTarget + d.temperatureOffset
    let minTemp := d.minTempCoolDryAuto.getD 16
    let maxTemp := d.maxTempHeat.getD 31
    let clamped := clampQ minTemp maxTemp compensated
    roundHalf clamped

/-- `ExternalSensor.updateTemperatureOffset`: returns the updated device and
whether a compensation re-dispatch was requested (the guarded call to
`reapplyCompensation`).  The offset itself is stored unconditionally. -/
def updateTemperatureOffset (d : CompDevice) : CompDevice × Bool :=
  if d.externalSensorEnabled = false ∨ d.externalTemperature = none then
    ({ d with temperatureOffset := 0 }, false)
  else
    match d.acRoomTemperature with
    | none => (d, false)
    | some acRoomTemp =>
      let ext := d.externalTemperature.getD 0
      let newOffset := acRoomTemp - ext
      let offsetChanged : Bool := decide ((3 : ℚ) / 10 < |newOffset - d.temperatureOffset|)
      ({ d with temperatureOffset := newOffset },
       offsetChanged && d.compensationEnabled && d.userTargetTemperature.isSome)

/-- `ExternalSensor.reapplyCompensation`: returns the updated device and
whether a `SetTemperature` command was sent to the AC client. -/
def reapplyCompensation (d : CompDevice) : CompDevice × Bool :=
  if d.compensationEnabled = false ∨ d.externalSensorEnabled = false ∨
      d.userTargetTemperature = none then
    (d, false)
  else
    let ut := d.userTargetTemperature.getD 0
    let newCompensated := getCompensatedTargetTemperature d ut
    if d.lastCompensatedTarget ≠ none ∧
        |newCompensated - d.lastCompensatedTarget.getD 0| < 1 / 2 then
      (d, false)
    else if d.hasDeviceData = false then (d, false)
    else ({ d with lastCompensatedTarget := some newCompensated }, true)

/-- The compensation function exactly as the claim words it: an online check,
a hysteresis threshold of 0.3 °C, and round-then-clamp. -/
def compensateClaim (online : Bool) (offset userTarget minAC maxAC : ℚ) : ℚ :=
  if online = false ∨ |offset| < 3 / 10 then userTarget
  else clampQ minAC maxAC (roundHalf (userTarget + offset))

/-- Device with a 0.4 °C offset: above the claimed 0.3 °C threshold but below
the device's actual 0.5 °C hysteresis. -/
def smallOffsetDevice : CompDevice :=
  { compensationEnabled := true, externalSensorEnabled := true,
    externalTemperature := some 20, temperatureOffset := 2 / 5,
    hysteresis := deviceHysteresis, minTempCoolDryAuto := none, maxTempHeat := none,
    userTargetTemperature := some 22, lastCompensatedTarget := none,
    acRoomTemperature := none, hasDeviceData := true }

/-- Device whose AC sensor reads 0.1 °C above the room while the stored offset
is 0: jitter below the 0.3 °C hysteresis. -/
def jitterDevice : CompDevice :=
  { compensationEnabled := true, externalSensorEnabled := true,
    externalTemperature := some 22, temperatureOffset := 0,
    hysteresis := deviceHysteresis, minTempCoolDryAuto := none, maxTempHeat := none,
    userTargetTemperature := some 23, lastCompensatedTarget := none,
    acRoomTemperature := some (221 / 10), hasDeviceData := true }

/-- Device whose AC sensor reads 3 °C below the room (typical winter ducted
install) while the stored offset is 0. -/
def offsetJumpDevice : CompDevice :=
  { compensationEnabled := true, externalSensorEnabled := true,
    externalTemperature := some 22, temperatureOffset := 0,
    hysteresis := deviceHysteresis, minTempCoolDryAuto := none, maxTempHeat := none,
    userTargetTemperature := some 23, lastCompensatedTarget := none,
    acRoomTemperature := some 19, hasDeviceData := true }

/-! ## Action executor (`deviceata/action-executor.js`) and command traces

`executeAction` keeps `lastActionTime` and drops any action arriving within
`minActionInterval` of the previous successful dispatch; a dispatched command
is reported as a `true` flag together with its timestamp.  Sends are assumed
to succeed (a failed `send` would leave `lastActionTime` untouched).
`reapplyCompensation` (external-sensor drift re-dispatch) sends directly via
the AC client without consulting `lastActionTime`; a device trace interleaves
both entry points. -/


/-- `this.minActionInterval = 60000` ms. -/
def MIN_ACTION_INTERVAL : ℤ := 60000

/-- The executor's only mutable field, `lastActionTime` (nullable). -/
structure ExecutorState where
  lastActionTime : Option ℤ
deriving DecidableEq, Repr

/-- `ActionExecutor.executeAction`: returns the updated state and whether a
command was dispatched. -/
def executeAction (s : ExecutorState) (now : ℤ) (action : Option HVACAction) :
    ExecutorState × Bool :=
  match action with
  | none => (s, false)
  | some _ =>
    match s.lastActionTime with
    | some t =>
      if now - t < MIN_ACTION_INTERVAL then (s, false)
      else ({ lastActionTime := some now }, true)
    | none => ({ lastActionTime := some now }, true)

/-- The per-device state visible to the two command-emitting entry points. -/
structure PredictiveDevice where
  comp : CompDevice
  exec : ExecutorState
deriving DecidableEq, Repr

/-- An invocation of one of the two command-emitting entry points. -/
inductive DeviceEvent
  | executorInvoke (now : ℤ) (action : Option HVACAction)
  | sensorReapply (now : ℤ)
deriving DecidableEq, Repr

/-- Whether an event goes through `ActionExecutor.executeAction`. -/
def isExecutorInvoke : DeviceEvent → Bool
  | DeviceEvent.executorInvoke _ _ => true
  | DeviceEvent.sensorReapply _ => false

/-- One invocation: returns the updated device and the timestamps of the
commands dispatched to the AC client by that invocation. -/
def deviceStep (st : PredictiveDevice) : DeviceEvent → PredictiveDevice × List ℤ
  | DeviceEvent.executorInvoke now a =>
    let r := executeAction st.exec now a
    ({ st with exec := r.1 }, if r.2 then [now] else [])
  | DeviceEvent.sensorReapply now =>
    let r := reapplyCompensation st.comp
    ({ st with comp := r.1 }, if r.2 then [now] else [])

/-- Run a sequence of invocations, collecting all dispatched command times. -/
def runDevice (st : PredictiveDevice) : List DeviceEvent → PredictiveDevice × List ℤ
  | [] => (st, [])
  | e :: es =>
    let r := deviceStep st e
    let rest := runDevice r.1 es
    (rest.1, r.2 ++ rest.2)

/-- Adjacent dispatch timestamps are at least `MIN_ACTION_INTERVAL` apart. -/
def rateLimited (ts : List ℤ) : Prop :=
  List.Chain' (fun a b => MIN_ACTION_INTERVAL ≤ b - a) ts

/-- A device with no prior command and a sensor state that will re-dispatch. -/
def freshPredictiveDevice : PredictiveDevice :=
  { comp := offsetJumpDevice, exec := { lastActionTime := none } }

/-- An executor command at t = 0 s followed by a sensor drift re-dispatch at
t = 10 s. -/
def mixedTrace : List DeviceEvent :=
  [DeviceEvent.executorInvoke 0 (some (HVACAction.coast 24)),
   DeviceEvent.sensorReapply 10000]

/-- Three executor invocations: the middle one arrives 30 s after the first
and is dropped; the third, 70 s after the first, is dispatched. -/
def executorOnlyTrace : List DeviceEvent :=
  [DeviceEvent.executorInvoke 0 (some (HVACAction.coast 24)),
   DeviceEvent.executorInvoke 30000 (some (HVACAction.coast 25)),
   DeviceEvent.executorInvoke 70000 (some (HVACAction.setMode "heat" 26))]

/-! ## Season mode (`predictive/index.js`, `PredictiveController.getSeasonMode`) -/


/-- `HeaterCoolerState.HEAT = 1` (`predictive/constants.js`). -/
def HEATER_COOLER_HEAT : ℤ := 1

/-- `HeaterCoolerState.COOL = 2` (`predictive/constants.js`). -/
def HEATER_COOLER_COOL : ℤ := 2

/-- The `PredictiveController` fields read by `getSeasonMode` and
`getUserComfortPreference`; `targetHeaterCoolerState` models
`this.device.accessoryState?.targetHeaterCoolerState` (absent → `none`). -/
structure ControllerState where
  targetTemperature : ℚ
  userComfortPreference : Option ℚ
  targetHeaterCoolerState : Option ℤ
deriving DecidableEq, Repr

/-- `PredictiveController.getUserComfortPreference`:
`this.userComfortPreference || this.targetTemperature` (the JS `||` also
replaces a stored 0 by the fallback). -/
def getUserComfortPreference (c : ControllerState) : ℚ :=
  match c.userComfortPreference with
  | some t => if t = 0 then c.targetTemperature else t
  | none => c.targetTemperature

/-- `PredictiveController.getSeasonMode`; `avgForecast24` stands for
`this.weatherClient.getAverageForecastTemp(24)` (null when no forecast). -/
def getSeasonMode (c : ControllerState) (avgForecast24 : Option ℚ) : SeasonMode :=
  if c.targetHeaterCoolerState = some HEATER_COOLER_HEAT then SeasonMode.winter
  else if c.targetHeaterCoolerState = some HEATER_COOLER_COOL then SeasonMode.summer
  else
    match avgForecast24 with
    | some avg => if c.targetTemperature < avg then SeasonMode.summer else SeasonMode.winter
    | none => SeasonMode.winter

/-- The season rule exactly as the claim words it: the AUTO branch compares
the forecast average against the tick's user comfort target. -/
def getSeasonModeClaim (c : ControllerState) (avgForecast24 : Option ℚ) : SeasonMode :=
  if c.targetHeaterCoolerState = some HEATER_COOLER_HEAT then SeasonMode.winter
  else if c.targetHeaterCoolerState = some HEATER_COOLER_COOL then SeasonMode.summer
  else
    match avgForecast24 with
    | some avg =>
      if getUserComfortPreference c < avg then SeasonMode.summer else SeasonMode.winter
    | none => SeasonMode.winter

/-- Controller in AUTO whose user preference (26 °C) differs from the
configured target (23 °C). -/
def autoController : ControllerState :=
  { targetTemperature := 23, userComfortPreference := some 26,
    targetHeaterCoolerState := some 0 }

/-- Winter context with a single forecast sample, 10 °C warmer than the
current outdoor temperature.  Only the weight at index 0 is consulted, and
`Math.exp(-0 / τ) = 1` exactly, so `fun _ => 1` agrees with the source's
exponential weights on this input. -/
def shortForecastContext : CalcParams :=
  { userComfortTarget := 23, currentIndoorTemp := none, currentOutdoorTemp := some 0,
    forecastTemps := [10], forecastSolar := [], seasonMode := SeasonMode.winter }

/-! ## Theorems -/

theorem le_clampQ (lo hi x : ℚ) : lo ≤ clampQ lo hi x := le_max_left _ _

theorem clampQ_le {lo hi : ℚ} (x : ℚ) (h : lo ≤ hi) : clampQ lo hi x ≤ hi := by
  simp only [clampQ, max_le_iff]
  exact ⟨h, min_le_left _ _⟩

theorem clampQ_le_of_le {lo hi x b : ℚ} (hlo : lo ≤ b) (hx : x ≤ b) :
    clampQ lo hi x ≤ b := by
  simp only [clampQ, max_le_iff]
  exact ⟨hlo, le_trans (min_le_right _ _) hx⟩

theorem le_clampQ_of_le {lo hi x b : ℚ} (hhi : b ≤ hi) (hx : b ≤ x) :
    b ≤ clampQ lo hi x := by
  simp only [clampQ]
  exact le_max_of_le_right (le_min hhi hx)

theorem roundHalf_mono : Monotone roundHalf := by
  intro x y hxy
  have h : (jsRound (x * 2) : ℤ) ≤ jsRound (y * 2) := by
    apply Int.floor_le_floor
    linarith
  simpa [roundHalf] using by
    have : ((jsRound (x * 2) : ℚ)) ≤ ((jsRound (y * 2) : ℚ)) := by exact_mod_cast h
    linarith

/-- Rounding to half-degrees fixes every half-integer. -/
theorem roundHalf_half_int (n : ℤ) : roundHalf ((n : ℚ) / 2) = (n : ℚ) / 2 := by
  have h2 : ((n : ℚ) / 2) * 2 = (n : ℚ) := by ring
  have : jsRound ((n : ℚ)) = n := by
    simp only [jsRound]
    rw [show (n : ℚ) + 1 / 2 = (1 : ℚ) / 2 + n by ring]
    rw [Int.floor_add_int]
    norm_num
  simp [roundHalf, h2, this]

theorem roundHalf_is_half_int (x : ℚ) : ∃ n : ℤ, roundHalf x = (n : ℚ) / 2 :=
  ⟨jsRound (x * 2), rfl⟩

/-! ## Bounds of the calculator layers -/


theorem summer_ne_winter : SeasonMode.summer ≠ SeasonMode.winter := by decide

theorem outdoorResetComponent_bounds (p : CalcParams) :
    -2 ≤ outdoorResetComponent p ∧ outdoorResetComponent p ≤ 2 := by
  unfold outdoorResetComponent calculateOutdoorResetCurve
  match p.currentOutdoorTemp with
  | none => norm_num
  | some t => exact ⟨le_clampQ _ _ _, clampQ_le _ (by norm_num)⟩

theorem forecastAdjustmentComponent_bounds (w : ℕ → ℚ) (p : CalcParams) :
    -1 ≤ forecastAdjustmentComponent w p ∧ forecastAdjustmentComponent w p ≤ 1 := by
  unfold forecastAdjustmentComponent calculateForecastAdjustment
  split
  · split
    · norm_num
    · split
      · norm_num
      · exact ⟨le_clampQ _ _ _, clampQ_le _ (by norm_num)⟩
  · norm_num

theorem errorCorrectionComponent_bounds (p : CalcParams) :
    -1 ≤ errorCorrectionComponent p ∧ errorCorrectionComponent p ≤ 1 := by
  unfold errorCorrectionComponent calculateErrorCorrection
  match p.currentIndoorTemp with
  | none => norm_num
  | some t => exact ⟨le_clampQ _ _ _, clampQ_le _ (by norm_num)⟩

theorem solarOffsetComponent_summer (p : CalcParams) (h : p.seasonMode = SeasonMode.summer) :
    solarOffsetComponent p = 0 := by
  unfold solarOffsetComponent
  rw [if_neg]
  rintro ⟨hw, -⟩
  rw [h] at hw
  exact summer_ne_winter hw

theorem coldWeatherBoostComponent_summer (p : CalcParams)
    (h : p.seasonMode = SeasonMode.summer) :
    coldWeatherBoostComponent p = 0 := by
  unfold coldWeatherBoostComponent
  rw [if_neg]
  rw [h]
  exact summer_ne_winter

/-- In summer, the layer sum sits at least 4 °C above `userComfortTarget − 8`:
only L1 (≥ −2), L2 (≥ −1) and L4 (≥ −1) can be negative, L3 and L5 are 0. -/
theorem layerSum_summer_lower (w : ℕ → ℚ) (p : CalcParams)
    (h : p.seasonMode = SeasonMode.summer) :
    p.userComfortTarget - 4 ≤ layerSum w p := by
  have h1 := (outdoorResetComponent_bounds p).1
  have h2 := (forecastAdjustmentComponent_bounds w p).1
  have h4 := (errorCorrectionComponent_bounds p).1
  have h3 := solarOffsetComponent_summer p h
  have h5 := coldWeatherBoostComponent_summer p h
  unfold layerSum
  rw [h3, h5]
  linarith

theorem maxPositiveDeviation_ge_two (p : CalcParams) : 2 ≤ maxPositiveDeviation p := by
  unfold maxPositiveDeviation
  split <;> norm_num

theorem maxPositiveDeviation_le_four (p : CalcParams) : maxPositiveDeviation p ≤ 4 := by
  unfold maxPositiveDeviation
  split <;> norm_num

theorem maxPositiveDeviation_summer (p : CalcParams)
    (h : p.seasonMode = SeasonMode.summer) : maxPositiveDeviation p = 2 := by
  unfold maxPositiveDeviation
  rw [if_neg]
  rintro ⟨hw, -⟩
  rw [h] at hw
  exact summer_ne_winter hw

theorem maxPositiveDeviation_no_cold (p : CalcParams)
    (h : outdoorBelowZero p = false) : maxPositiveDeviation p = 2 := by
  unfold maxPositiveDeviation
  rw [if_neg]
  rintro ⟨-, hb⟩
  rw [h] at hb
  exact Bool.false_ne_true hb

/-- In summer the deviation clamp yields a value in
`[userComfortTarget − 4, userComfortTarget + 2]` (no lower clamp is applied). -/
theorem clampedTarget_summer (w : ℕ → ℚ) (p : CalcParams)
    (h : p.seasonMode = SeasonMode.summer) :
    p.userComfortTarget - 4 ≤ clampedTarget w p ∧
      clampedTarget w p ≤ p.userComfortTarget + 2 := by
  have hlow := layerSum_summer_lower w p h
  have hmax := maxPositiveDeviation_summer p h
  have hne : ¬ p.seasonMode = SeasonMode.winter := by
    rw [h]; exact summer_ne_winter
  unfold clampedTarget
  rw [if_neg (by rintro ⟨hw, -⟩; exact hne hw)]
  rw [if_neg (by rintro ⟨hw, -⟩; exact hne hw)]
  rw [hmax]
  split
  · constructor <;> linarith
  · rename_i hcond
    have : ¬ p.userComfortTarget + 2 < layerSum w p := fun hc => hcond ⟨h, hc⟩
    constructor <;> linarith

/-- In winter the deviation clamp yields a value in
`[userComfortTarget − 2, userComfortTarget + maxPositiveDeviation]`. -/
theorem clampedTarget_winter (w : ℕ → ℚ) (p : CalcParams)
    (h : p.seasonMode = SeasonMode.winter) :
    p.userComfortTarget - 2 ≤ clampedTarget w p ∧
      clampedTarget w p ≤ p.userComfortTarget + maxPositiveDeviation p := by
  have hmax2 := maxPositiveDeviation_ge_two p
  have hne : ¬ p.seasonMode = SeasonMode.summer := by
    rw [h]; intro hc; exact summer_ne_winter hc.symm
  simp only [clampedTarget]
  split
  · constructor <;> linarith
  · rename_i hc1
    have h1 : ¬ layerSum w p < p.userComfortTarget - 2 := fun hc => hc1 ⟨h, hc⟩
    split
    · constructor <;> linarith
    · rename_i hc2
      have h2 : ¬ p.userComfortTarget + maxPositiveDeviation p < layerSum w p :=
        fun hc => hc2 ⟨h, hc⟩
      rw [if_neg (by rintro ⟨hs, -⟩; exact hne hs)]
      constructor <;> linarith

theorem roundHalf_le_half_int {x : ℚ} (m : ℤ) (hx : x ≤ (m : ℚ) / 2) :
    roundHalf x ≤ (m : ℚ) / 2 :=
  le_of_le_of_eq (roundHalf_mono hx) (roundHalf_half_int m)

theorem half_int_le_roundHalf {x : ℚ} (m : ℤ) (hx : (m : ℚ) / 2 ≤ x) :
    (m : ℚ) / 2 ≤ roundHalf x :=
  le_of_eq_of_le (roundHalf_half_int m).symm (roundHalf_mono hx)

/-- If the deviation-clamped value stays at most `k` above a half-integer user
target with `16 ≤ target`, so does the final rounded, range-clamped result. -/
theorem predicted_le (w : ℕ → ℚ) (p : CalcParams) (n k : ℤ)
    (hstep : p.userComfortTarget = (n : ℚ) / 2) (hk : 0 ≤ (k : ℚ))
    (hlo : 16 ≤ p.userComfortTarget)
    (hc : clampedTarget w p ≤ p.userComfortTarget + (k : ℚ)) :
    (calculateSetpoint w p).predictedRoomTarget ≤ p.userComfortTarget + (k : ℚ) := by
  unfold calculateSetpoint
  have h1 : clampQ 16 30 (clampedTarget w p) ≤ p.userComfortTarget + (k : ℚ) :=
    clampQ_le_of_le (by linarith) hc
  have h2 : p.userComfortTarget + (k : ℚ) = ((n + 2 * k : ℤ) : ℚ) / 2 := by
    push_cast
    rw [hstep]
    ring
  rw [h2] at h1 ⊢
  exact roundHalf_le_half_int _ h1

/-- If the deviation-clamped value stays at most `k` below a half-integer user
target with `target ≤ 30`, so does the final rounded, range-clamped result. -/
theorem le_predicted (w : ℕ → ℚ) (p : CalcParams) (n k : ℤ)
    (hstep : p.userComfortTarget = (n : ℚ) / 2) (hk : 0 ≤ (k : ℚ))
    (hhi : p.userComfortTarget ≤ 30)
    (hc : p.userComfortTarget - (k : ℚ) ≤ clampedTarget w p) :
    p.userComfortTarget - (k : ℚ) ≤ (calculateSetpoint w p).predictedRoomTarget := by
  unfold calculateSetpoint
  have h1 : p.userComfortTarget - (k : ℚ) ≤ clampQ 16 30 (clampedTarget w p) :=
    le_clampQ_of_le (by linarith) hc
  have h2 : p.userComfortTarget - (k : ℚ) = ((n - 2 * k : ℤ) : ℚ) / 2 := by
    push_cast
    rw [hstep]
    ring
  rw [h2] at h1 ⊢
  exact half_int_le_roundHalf _ h1

/-- **C4** (confirmed).  For every `ControlContext` input to `calculateSetpoint`
(and every weight function modelling the exponential decay), the returned
`predictedRoomTarget` lies in the closed interval `[16, 30]` and is an exact
multiple of 0.5 °C. -/
theorem C4_predicted_range_and_halfstep (w : ℕ → ℚ) (p : CalcParams) :
    16 ≤ (calculateSetpoint w p).predictedRoomTarget ∧
      (calculateSetpoint w p).predictedRoomTarget ≤ 30 ∧
      ∃ n : ℤ, (calculateSetpoint w p).predictedRoomTarget = (n : ℚ) / 2 := by
  unfold calculateSetpoint
  refine ⟨?_, ?_, roundHalf_is_half_int _⟩
  · have h1 : ((32 : ℤ) : ℚ) / 2 ≤ clampQ 16 30 (clampedTarget w p) := by
      have := le_clampQ 16 30 (clampedTarget w p)
      norm_num
      linarith
    have h2 := half_int_le_roundHalf 32 h1
    norm_num at h2
    exact h2
  · have h1 : clampQ 16 30 (clampedTarget w p) ≤ ((60 : ℤ) : ℚ) / 2 := by
      have := @clampQ_le 16 30 (clampedTarget w p) (by norm_num)
      norm_num
      linarith
    have h2 := roundHalf_le_half_int 60 h1
    norm_num at h2
    exact h2

/-- **C1** (corrected).  For a user comfort target that is a multiple of
0.5 °C inside the calculator's own range `[16, 30]`: the predicted room target
is never more than 2 °C above the target, except in winter with outdoor
temperature < 0 °C where the upper bound widens to +4 °C; in winter it is never
more than 2 °C below the target; but in summer — contrary to the claim — the
source applies no lower clamp, and the result can be up to 4 °C below the
target (see the counterexample). -/
theorem C1_deviation_bounds (w : ℕ → ℚ) (p : CalcParams) (n : ℤ)
    (hstep : p.userComfortTarget = (n : ℚ) / 2)
    (hlo : 16 ≤ p.userComfortTarget) (hhi : p.userComfortTarget ≤ 30) :
    (p.seasonMode = SeasonMode.summer →
      p.userComfortTarget - 4 ≤ (calculateSetpoint w p).predictedRoomTarget ∧
        (calculateSetpoint w p).predictedRoomTarget ≤ p.userComfortTarget + 2) ∧
    (p.seasonMode = SeasonMode.winter →
      p.userComfortTarget - 2 ≤ (calculateSetpoint w p).predictedRoomTarget ∧
        (calculateSetpoint w p).predictedRoomTarget ≤ p.userComfortTarget + 4 ∧
        (outdoorBelowZero p = false →
          (calculateSetpoint w p).predictedRoomTarget ≤ p.userComfortTarget + 2)) := by
  constructor
  · intro hs
    have hcl := clampedTarget_summer w p hs
    constructor
    · have h := le_predicted w p n 4 hstep (by norm_num) hhi (by push_cast; exact hcl.1)
      push_cast at h
      exact h
    · have h := predicted_le w p n 2 hstep (by norm_num) hlo (by push_cast; exact hcl.2)
      push_cast at h
      exact h
  · intro hw
    have hcl := clampedTarget_winter w p hw
    refine ⟨?_, ?_, ?_⟩
    · have h := le_predicted w p n 2 hstep (by norm_num) hhi (by push_cast; exact hcl.1)
      push_cast at h
      exact h
    · have hc4 : clampedTarget w p ≤ p.userComfortTarget + 4 :=
        le_trans hcl.2 (by have := maxPositiveDeviation_le_four p; linarith)
      have h := predicted_le w p n 4 hstep (by norm_num) hlo (by push_cast; exact hc4)
      push_cast at h
      exact h
    · intro hcold
      have hc2 : clampedTarget w p ≤ p.userComfortTarget + 2 := by
        have := maxPositiveDeviation_no_cold p hcold
        rw [this] at hcl
        exact hcl.2
      have h := predicted_le w p n 2 hstep (by norm_num) hlo (by push_cast; exact hc2)
      push_cast at h
      exact h

theorem summerHot_layerSum : layerSum (fun _ => 1) summerHotContext = 21 := by
  norm_num [layerSum, outdoorResetComponent, forecastAdjustmentComponent, solarOffsetComponent,
    errorCorrectionComponent, coldWeatherBoostComponent, calculateOutdoorResetCurve,
    calculateErrorCorrection, clampQ, summerHotContext, OUTDOOR_RESET_SLOPE, summer_ne_winter,
    max_def, min_def]

theorem summerHot_clampedTarget : clampedTarget (fun _ => 1) summerHotContext = 21 := by
  simp only [clampedTarget, summerHot_layerSum]
  norm_num [summerHotContext, maxPositiveDeviation, outdoorBelowZero, summer_ne_winter]

/-- **C1 counterexample**: in summer with user target 24 °C, indoor 30 °C and
outdoor 40 °C, the calculator returns 21 °C — three degrees below the user
comfort target, refuting both the `|predicted − target| ≤ 2` claim and the
claim that in summer the result is never more than 2 °C below the target. -/
theorem C1_counterexample :
    summerHotContext.seasonMode = SeasonMode.summer ∧
      (calculateSetpoint (fun _ => 1) summerHotContext).predictedRoomTarget = 21 ∧
      (calculateSetpoint (fun _ => 1) summerHotContext).predictedRoomTarget <
        summerHotContext.userComfortTarget - 2 := by
  have hval : (calculateSetpoint (fun _ => 1) summerHotContext).predictedRoomTarget = 21 := by
    simp only [calculateSetpoint, summerHot_clampedTarget]
    have h : clampQ 16 30 (21 : ℚ) = 21 := by norm_num [clampQ, max_def, min_def]
    rw [h]
    have h2 := roundHalf_half_int 42
    norm_num at h2
    exact h2
  refine ⟨rfl, hval, ?_⟩
  rw [hval]
  norm_num [summerHotContext]

/-- Witness for `C1_deviation_bounds`, at the concrete summer context. -/
theorem C1_deviation_bounds_witness :
    summerHotContext.userComfortTarget - 4 ≤
        (calculateSetpoint (fun _ => 1) summerHotContext).predictedRoomTarget ∧
      (calculateSetpoint (fun _ => 1) summerHotContext).predictedRoomTarget ≤
        summerHotContext.userComfortTarget + 2 :=
  (C1_deviation_bounds (fun _ => 1) summerHotContext 48
    (by norm_num [summerHotContext]) (by norm_num [summerHotContext])
    (by norm_num [summerHotContext])).1 rfl

theorem minOnGuard_iff (m : StateMachine) (now : ℤ) (s : HVACState) :
    minOnGuard m now s = true ↔
      (isActiveState m.currentState = true → isActiveState s = false →
        ∀ t, m.timers.lastOnTime = some t → m.config.minOnTime ≤ now - t) := by
  unfold minOnGuard
  cases ha : isActiveState m.currentState <;> cases hb : isActiveState s <;>
    cases ht : m.timers.lastOnTime <;> simp_all

theorem minOffGuard_iff (m : StateMachine) (now : ℤ) (s : HVACState) :
    minOffGuard m now s = true ↔
      (isActiveState m.currentState = false → isActiveState s = true →
        ∀ t, m.timers.lastOffTime = some t → m.config.minOffTime ≤ now - t) := by
  unfold minOffGuard
  cases ha : isActiveState m.currentState <;> cases hb : isActiveState s <;>
    cases ht : m.timers.lastOffTime <;> simp_all

theorem modeSwitchGuard_iff (m : StateMachine) (now : ℤ) (s : HVACState) :
    modeSwitchGuard m now s = true ↔
      ((isHeatingState m.currentState = true ∧ isCoolingState s = true) ∨
        (isCoolingState m.currentState = true ∧ isHeatingState s = true) →
        ∀ t, m.timers.lastModeSwitch = some t → m.config.minModeSwitch ≤ now - t) := by
  unfold modeSwitchGuard
  cases hc : isHeatingState m.currentState <;> cases hd : isCoolingState s <;>
    cases he : isCoolingState m.currentState <;> cases hf : isHeatingState s <;>
    cases ht : m.timers.lastModeSwitch <;> simp_all

/-- The source's boolean guard decides exactly the spec's guard conditions. -/
theorem canTransitionTo_iff (m : StateMachine) (now : ℤ) (s : HVACState) :
    canTransitionTo m now s = true ↔ guardsOk m now s := by
  unfold canTransitionTo guardsOk
  rw [Bool.and_eq_true, Bool.and_eq_true, minOnGuard_iff, minOffGuard_iff, modeSwitchGuard_iff]
  tauto

/-- **C2** (confirmed).  Whenever `currentTemp` is null, `processUpdate`
returns a `SENSOR_FAULT` decision with `action = null`, for every machine
state — in particular regardless of the anti-oscillation timers, which are
never consulted on this path. -/
theorem C2_sensor_fault_unconditional (m : StateMachine) (now : ℤ) (p : UpdateParams)
    (h : p.currentTemp = none) :
    (processUpdate m now p).1.state = SENSOR_FAULT ∧
      (processUpdate m now p).1.action = none ∧
      (processUpdate m now p).2.1.currentState = SENSOR_FAULT := by
  simp [processUpdate, h, transitionTo]

/-- Witness for `C2_sensor_fault_unconditional` at a concrete blocked machine,
1 s after the timers were set (well inside every lockout window). -/
theorem C2_sensor_fault_unconditional_witness :
    (processUpdate activeBlockedMachine 1000 faultTickParams).1.state = SENSOR_FAULT ∧
      (processUpdate activeBlockedMachine 1000 faultTickParams).1.action = none ∧
      (processUpdate activeBlockedMachine 1000 faultTickParams).2.1.currentState =
        SENSOR_FAULT :=
  C2_sensor_fault_unconditional activeBlockedMachine 1000 faultTickParams rfl

/-- **C3** (confirmed).  On a tick with a non-null room temperature whose
desired state differs from the current state, the transition happens exactly
when the three anti-oscillation guard conditions hold, and a blocked attempt
keeps the current state, returns no action, reports the literal blocked
reason, and leaves the machine (timers included) untouched. -/
theorem C3_anti_oscillation_guards (m : StateMachine) (now : ℤ) (p : UpdateParams) (ct : ℚ)
    (hct : p.currentTemp = some ct)
    (hdiff : determineDesiredState m (ct - p.targetTemp) (m.config.deadband / 2)
      p.seasonMode p.forecast ≠ m.currentState) :
    (guardsOk m now (determineDesiredState m (ct - p.targetTemp) (m.config.deadband / 2)
        p.seasonMode p.forecast) →
      (processUpdate m now p).1.state =
        determineDesiredState m (ct - p.targetTemp) (m.config.deadband / 2)
          p.seasonMode p.forecast ∧
      (processUpdate m now p).2.1.currentState =
        determineDesiredState m (ct - p.targetTemp) (m.config.deadband / 2)
          p.seasonMode p.forecast) ∧
    (¬ guardsOk m now (determineDesiredState m (ct - p.targetTemp) (m.config.deadband / 2)
        p.seasonMode p.forecast) →
      processUpdate m now p =
        ({ state := m.currentState, action := none,
           reason := "Transition blocked by anti-oscillation timer" }, m, [])) := by
  constructor
  · intro hg
    have hcan : canTransitionTo m now (determineDesiredState m (ct - p.targetTemp)
        (m.config.deadband / 2) p.seasonMode p.forecast) = true :=
      (canTransitionTo_iff _ _ _).mpr hg
    simp [processUpdate, hct, hdiff, hcan, transitionTo]
  · intro hg
    have hcan : canTransitionTo m now (determineDesiredState m (ct - p.targetTemp)
        (m.config.deadband / 2) p.seasonMode p.forecast) = false := by
      rcases hb : canTransitionTo m now (determineDesiredState m (ct - p.targetTemp)
          (m.config.deadband / 2) p.seasonMode p.forecast) with _ | _
      · rfl
      · exact absurd ((canTransitionTo_iff _ _ _).mp hb) hg
    simp [processUpdate, hct, hdiff, hcan]

theorem coldTick_desired :
    determineDesiredState standbyMachine ((20 : ℚ) - coldTickParams.targetTemp)
      (standbyMachine.config.deadband / 2) coldTickParams.seasonMode
      coldTickParams.forecast = HEATING_ACTIVE := by
  norm_num [determineDesiredState, standbyMachine, coldTickParams, defaultSMConfig]

/-- Witness for `C3_anti_oscillation_guards`: with all timers unset the guards
hold and the standby→heating transition is performed. -/
theorem C3_anti_oscillation_guards_witness :
    (processUpdate standbyMachine 0 coldTickParams).1.state = HEATING_ACTIVE ∧
      (processUpdate standbyMachine 0 coldTickParams).2.1.currentState = HEATING_ACTIVE := by
  have hdiff : determineDesiredState standbyMachine ((20 : ℚ) - coldTickParams.targetTemp)
      (standbyMachine.config.deadband / 2) coldTickParams.seasonMode
      coldTickParams.forecast ≠ standbyMachine.currentState := by
    rw [coldTick_desired]
    decide
  have hg : guardsOk standbyMachine 0 (determineDesiredState standbyMachine
      ((20 : ℚ) - coldTickParams.targetTemp) (standbyMachine.config.deadband / 2)
      coldTickParams.seasonMode coldTickParams.forecast) := by
    simp [guardsOk, standbyMachine]
  have h := (C3_anti_oscillation_guards standbyMachine 0 coldTickParams 20 rfl hdiff).1 hg
  exact ⟨h.1.trans coldTick_desired, h.2.trans coldTick_desired⟩

theorem transitionTo_stateEnteredAt (m : StateMachine) (now : ℤ) (s : HVACState)
    (a : Option HVACAction) (r : String) :
    (transitionTo m now s a r).2.1.stateEnteredAt = now := by
  simp [transitionTo]

theorem transitionTo_events (m : StateMachine) (now : ℤ) (s : HVACState)
    (a : Option HVACAction) (r : String) :
    (transitionTo m now s a r).2.2 =
      [{ oldState := m.currentState, newState := s, action := a, reason := r }] := by
  simp [transitionTo]

/-- The entry pushed by `_transitionTo` is always the last element of the
(possibly trimmed) history. -/
theorem transitionTo_history_getLast (m : StateMachine) (now : ℤ) (s : HVACState)
    (a : Option HVACAction) (r : String) :
    (transitionTo m now s a r).2.1.stateHistory.getLast? =
      some { fromState := m.currentState, toState := s, timestamp := now, reason := r } := by
  simp only [transitionTo]
  split
  · rename_i hlong
    rw [List.drop_append_of_le_length]
    · exact List.getLast?_concat _
    · simp only [List.length_append, List.length_singleton, maxHistoryLength] at hlong
      omega
  · exact List.getLast?_concat _

/-- The history length never exceeds `maxHistoryLength` across a transition. -/
theorem transitionTo_history_length (m : StateMachine) (now : ℤ) (s : HVACState)
    (a : Option HVACAction) (r : String) (h : m.stateHistory.length ≤ maxHistoryLength) :
    (transitionTo m now s a r).2.1.stateHistory.length ≤ maxHistoryLength := by
  simp only [transitionTo]
  split
  · rename_i hlong
    simp only [List.length_drop, List.length_append, List.length_singleton,
      maxHistoryLength] at hlong h ⊢
    omega
  · rename_i hshort
    simp only [List.length_append, List.length_singleton, maxHistoryLength] at hshort h ⊢
    omega

/-- **C10** (confirmed).  A null-temperature tick taken while already in
`SENSOR_FAULT` performs a full self-transition: `stateEnteredAt` is reset to
`now`, a `SENSOR_FAULT → SENSOR_FAULT` entry becomes the last history entry,
the history stays capped at 50 entries, and a `stateChange` event is emitted
on this very tick. -/
theorem C10_fault_self_transition (m : StateMachine) (now : ℤ) (p : UpdateParams)
    (hct : p.currentTemp = none) (hcur : m.currentState = SENSOR_FAULT)
    (hlen : m.stateHistory.length ≤ maxHistoryLength) :
    (processUpdate m now p).2.1.stateEnteredAt = now ∧
      (processUpdate m now p).2.1.stateHistory.getLast? =
        some { fromState := SENSOR_FAULT, toState := SENSOR_FAULT, timestamp := now,
               reason := "External temperature sensor unavailable" } ∧
      (processUpdate m now p).2.1.stateHistory.length ≤ maxHistoryLength ∧
      (processUpdate m now p).2.2 =
        [{ oldState := SENSOR_FAULT, newState := SENSOR_FAULT, action := none,
           reason := "External temperature sensor unavailable" }] := by
  have hpu : processUpdate m now p =
      transitionTo m now SENSOR_FAULT none "External temperature sensor unavailable" := by
    simp [processUpdate, hct]
  rw [hpu]
  refine ⟨transitionTo_stateEnteredAt m now _ _ _, ?_, ?_, ?_⟩
  · rw [transitionTo_history_getLast m now _ _ _, hcur]
  · exact transitionTo_history_length m now _ _ _ hlen
  · rw [transitionTo_events m now _ _ _, hcur]

/-- Witness for `C10_fault_self_transition` at a concrete faulted machine. -/
theorem C10_fault_self_transition_witness :
    (processUpdate faultedMachine 7777 faultTickParams).2.1.stateEnteredAt = 7777 ∧
      (processUpdate faultedMachine 7777 faultTickParams).2.1.stateHistory.getLast? =
        some { fromState := SENSOR_FAULT, toState := SENSOR_FAULT, timestamp := 7777,
               reason := "External temperature sensor unavailable" } ∧
      (processUpdate faultedMachine 7777 faultTickParams).2.1.stateHistory.length ≤
        maxHistoryLength ∧
      (processUpdate faultedMachine 7777 faultTickParams).2.2 =
        [{ oldState := SENSOR_FAULT, newState := SENSOR_FAULT, action := none,
           reason := "External temperature sensor unavailable" }] :=
  C10_fault_self_transition faultedMachine 7777 faultTickParams rfl rfl (by decide)

/-- Evaluation rule for `jsRound` at concrete rationals. -/
theorem jsRound_eq (x : ℚ) (n : ℤ) (h1 : (n : ℚ) ≤ x + 1 / 2) (h2 : x + 1 / 2 < (n : ℚ) + 1) :
    jsRound x = n := by
  unfold jsRound
  rw [Int.floor_eq_iff]
  exact ⟨h1, by exact_mod_cast h2⟩

/-- Rounding to half degrees commutes with clamping at half-integer bounds. -/
theorem roundHalf_clampQ_comm (a b : ℤ) (x : ℚ) :
    roundHalf (clampQ ((a : ℚ) / 2) ((b : ℚ) / 2) x) =
      clampQ ((a : ℚ) / 2) ((b : ℚ) / 2) (roundHalf x) := by
  unfold clampQ
  rw [roundHalf_mono.map_max, roundHalf_mono.map_min, roundHalf_half_int, roundHalf_half_int]

/-- **C5** (corrected).  With compensation and the external sensor enabled and
the device's configured hysteresis (0.5 °C, not the claimed 0.3 °C):
a missing reading or an offset below the hysteresis returns `userTarget`
unchanged; otherwise the result is `userTarget + offset` clamped to the AC
min/max and rounded to 0.5 °C — equivalently (for half-step bounds, as the
claim words it) rounded and then clamped. -/
theorem C5_compensation_behaviour (d : CompDevice) (userTarget : ℚ)
    (hen : d.compensationEnabled = true) (hsen : d.externalSensorEnabled = true)
    (hhyst : d.hysteresis = deviceHysteresis) :
    ((d.externalTemperature = none ∨ |d.temperatureOffset| < 1 / 2) →
      getCompensatedTargetTemperature d userTarget = userTarget) ∧
    (d.externalTemperature ≠ none → 1 / 2 ≤ |d.temperatureOffset| →
      getCompensatedTargetTemperature d userTarget =
        roundHalf (clampQ (d.minTempCoolDryAuto.getD 16) (d.maxTempHeat.getD 31)
          (userTarget + d.temperatureOffset)) ∧
      (∀ a b : ℤ, d.minTempCoolDryAuto.getD 16 = (a : ℚ) / 2 →
        d.maxTempHeat.getD 31 = (b : ℚ) / 2 →
        getCompensatedTargetTemperature d userTarget =
          clampQ ((a : ℚ) / 2) ((b : ℚ) / 2)
            (roundHalf (userTarget + d.temperatureOffset)))) := by
  constructor
  · intro h
    unfold getCompensatedTargetTemperature
    rw [if_neg (by simp [hen, hsen]), if_pos]
    rw [hhyst]
    simpa [deviceHysteresis] using h
  · intro hext hoff
    have heq : getCompensatedTargetTemperature d userTarget =
        roundHalf (clampQ (d.minTempCoolDryAuto.getD 16) (d.maxTempHeat.getD 31)
          (userTarget + d.temperatureOffset)) := by
      unfold getCompensatedTargetTemperature
      rw [if_neg (by simp [hen, hsen]), if_neg]
      rw [hhyst]
      unfold deviceHysteresis
      rintro (hc | hc)
      · exact hext hc
      · linarith
    refine ⟨heq, ?_⟩
    intro a b ha hb
    rw [heq, ha, hb, roundHalf_clampQ_comm]

/-- **C5 counterexample**: with an online tracker and offset 0.4 °C the code
returns the user target unchanged (0.4 < hysteresis 0.5), while the claimed
0.3 °C rule would compensate 22 °C to 22.5 °C. -/
theorem C5_counterexample :
    getCompensatedTargetTemperature smallOffsetDevice 22 = 22 ∧
      compensateClaim true (2 / 5) 22 16 31 = 45 / 2 ∧
      getCompensatedTargetTemperature smallOffsetDevice 22 ≠
        compensateClaim true (2 / 5) 22 16 31 := by
  have habs : |(2 / 5 : ℚ)| = 2 / 5 := abs_of_nonneg (by norm_num)
  have h1 : getCompensatedTargetTemperature smallOffsetDevice 22 = 22 := by
    unfold getCompensatedTargetTemperature
    rw [if_neg (by simp [smallOffsetDevice]), if_pos]
    right
    simp [smallOffsetDevice, habs, deviceHysteresis]
    norm_num
  have hr : roundHalf ((112 : ℚ) / 5) = 45 / 2 := by
    have hj : jsRound ((112 : ℚ) / 5 * 2) = 45 :=
      jsRound_eq _ 45 (by norm_num) (by norm_num)
    unfold roundHalf
    rw [hj]
    norm_num
  have h2 : compensateClaim true (2 / 5) 22 16 31 = 45 / 2 := by
    unfold compensateClaim
    rw [if_neg (by rw [habs]; norm_num)]
    rw [show (22 : ℚ) + 2 / 5 = 112 / 5 by norm_num]
    have hcl : clampQ 16 31 (roundHalf ((112 : ℚ) / 5)) = 45 / 2 := by
      rw [hr]
      norm_num [clampQ, max_def, min_def]
    exact hcl
  exact ⟨h1, h2, by rw [h1, h2]; norm_num⟩

/-- Witness for `C5_compensation_behaviour` at the 0.4 °C-offset device. -/
theorem C5_compensation_behaviour_witness :
    getCompensatedTargetTemperature smallOffsetDevice 22 = 22 :=
  (C5_compensation_behaviour smallOffsetDevice 22 rfl rfl rfl).1
    (Or.inr (by
      rw [show smallOffsetDevice.temperatureOffset = 2 / 5 from rfl,
        abs_of_nonneg (by norm_num : (0 : ℚ) ≤ 2 / 5)]
      norm_num))

/-- **C7** (corrected).  When a fresh AC snapshot and a fresh room reading are
both present, `updateTemperatureOffset` always stores the newly computed
offset `acSensorTemp − roomTemp`; the 0.3 °C hysteresis gates only the
compensation re-dispatch (and logging), which is requested exactly when the
offset moved by more than 0.3 °C, compensation is enabled, and a user target
exists. -/
theorem C7_offset_update (d : CompDevice) (acRoomTemp ext : ℚ)
    (hsen : d.externalSensorEnabled = true) (hext : d.externalTemperature = some ext)
    (hac : d.acRoomTemperature = some acRoomTemp) :
    (updateTemperatureOffset d).1.temperatureOffset = acRoomTemp - ext ∧
      ((updateTemperatureOffset d).2 = true ↔
        (3 : ℚ) / 10 < |acRoomTemp - ext - d.temperatureOffset| ∧
          d.compensationEnabled = true ∧ d.userTargetTemperature.isSome = true) := by
  unfold updateTemperatureOffset
  rw [if_neg (by simp [hsen, hext])]
  rw [hac]
  simp only [hext, Option.getD_some, Bool.and_eq_true, decide_eq_true_eq]
  exact ⟨trivial, and_assoc⟩

/-- **C7 counterexample**: a 0.1 °C jitter (well within the 0.3 °C hysteresis)
still changes the stored offset from 0 to 0.1 — the hysteresis does not
protect the published offset, only the re-dispatch. -/
theorem C7_counterexample :
    |(221 / 10 - 22 : ℚ) - jitterDevice.temperatureOffset| ≤ 3 / 10 ∧
      (updateTemperatureOffset jitterDevice).1.temperatureOffset = 1 / 10 ∧
      (updateTemperatureOffset jitterDevice).1.temperatureOffset ≠
        jitterDevice.temperatureOffset := by
  have hval : (updateTemperatureOffset jitterDevice).1.temperatureOffset = 1 / 10 := by
    unfold updateTemperatureOffset
    rw [if_neg (by simp [jitterDevice])]
    norm_num [jitterDevice]
  have habs : |(221 / 10 - 22 : ℚ) - jitterDevice.temperatureOffset| = 1 / 10 := by
    rw [show jitterDevice.temperatureOffset = 0 from rfl]
    rw [show (221 / 10 - 22 : ℚ) - 0 = 1 / 10 by norm_num]
    exact abs_of_nonneg (by norm_num)
  refine ⟨by rw [habs]; norm_num, hval, ?_⟩
  rw [hval, show jitterDevice.temperatureOffset = 0 from rfl]
  norm_num

/-- Witness for `C7_offset_update`: a −3 °C jump stores the new offset and
requests a re-dispatch. -/
theorem C7_offset_update_witness :
    (updateTemperatureOffset offsetJumpDevice).1.temperatureOffset = 19 - 22 ∧
      ((updateTemperatureOffset offsetJumpDevice).2 = true ↔
        (3 : ℚ) / 10 < |19 - 22 - offsetJumpDevice.temperatureOffset| ∧
          offsetJumpDevice.compensationEnabled = true ∧
          offsetJumpDevice.userTargetTemperature.isSome = true) :=
  C7_offset_update offsetJumpDevice 19 22 rfl rfl rfl

/-- Invariant behind the executor's rate limit: with `lastActionTime = some t`
every dispatch chains off `t`; with it unset the dispatches form a chain. -/
theorem runDevice_executor_chain (es : List DeviceEvent) (st : PredictiveDevice)
    (hexec : es.all isExecutorInvoke = true) :
    (st.exec.lastActionTime = none → rateLimited (runDevice st es).2) ∧
      (∀ t0, st.exec.lastActionTime = some t0 →
        List.Chain (fun a b => MIN_ACTION_INTERVAL ≤ b - a) t0 (runDevice st es).2) := by
  induction es generalizing st with
  | nil =>
    refine ⟨fun _ => by simp [runDevice, rateLimited], fun t0 _ => ?_⟩
    simp only [runDevice]
    exact List.Chain.nil
  | cons e es ih =>
    simp only [List.all_cons, Bool.and_eq_true] at hexec
    match e with
    | DeviceEvent.sensorReapply _ => simp [isExecutorInvoke] at hexec
    | DeviceEvent.executorInvoke now a =>
      match a with
      | none =>
        have h := ih { comp := st.comp, exec := st.exec } hexec.2
        constructor
        · intro hnone
          simpa [runDevice, deviceStep, executeAction] using h.1 hnone
        · intro t0 ht
          simpa [runDevice, deviceStep, executeAction] using h.2 t0 ht
      | some act =>
        constructor
        · intro hnone
          have h := ih { comp := st.comp, exec := { lastActionTime := some now } }
            hexec.2
          have hchain := h.2 now rfl
          simp only [runDevice, deviceStep, executeAction, hnone, if_true,
            List.singleton_append]
          exact hchain
        · intro t0 ht
          by_cases hlt : now - t0 < MIN_ACTION_INTERVAL
          · have h := ih { comp := st.comp, exec := st.exec } hexec.2
            have hchain := h.2 t0 ht
            simpa [runDevice, deviceStep, executeAction, ht, hlt] using hchain
          · have h := ih { comp := st.comp, exec := { lastActionTime := some now } }
              hexec.2
            have hchain := h.2 now rfl
            simp only [runDevice, deviceStep, executeAction, ht, if_neg hlt,
              List.singleton_append]
            exact List.Chain.cons (not_lt.mp hlt) hchain

/-- **C6** (corrected for the executor path).  Across any sequence of
invocations that all go through `ActionExecutor.executeAction` (starting with
no prior command), no two consecutive dispatched commands are less than
`MIN_ACTION_INTERVAL = 60 s` apart: an action arriving within 60 s of the
previously dispatched command is dropped.  The limit is not global to the
device — the sensor drift re-dispatch bypasses it (see the counterexample). -/
theorem C6_executor_rate_limit (es : List DeviceEvent) (st : PredictiveDevice)
    (hstart : st.exec.lastActionTime = none)
    (hexec : es.all isExecutorInvoke = true) :
    rateLimited (runDevice st es).2 :=
  (runDevice_executor_chain es st hexec).1 hstart

/-- **C6 counterexample**: the drift re-dispatch path sends directly through
the AC client without consulting `lastActionTime`, so two commands reach the
AC 10 s apart — the rate limit is not global to the device. -/
theorem C6_counterexample :
    (runDevice freshPredictiveDevice mixedTrace).2 = [0, 10000] ∧
      ¬ rateLimited (runDevice freshPredictiveDevice mixedTrace).2 := by
  have habs : |(0 : ℚ)| < 1 / 2 := by norm_num
  have hrun : (runDevice freshPredictiveDevice mixedTrace).2 = [0, 10000] := by
    simp [runDevice, mixedTrace, deviceStep, executeAction, reapplyCompensation,
      freshPredictiveDevice, offsetJumpDevice, getCompensatedTargetTemperature,
      deviceHysteresis, habs]
  refine ⟨hrun, ?_⟩
  rw [hrun]
  simp [rateLimited, List.chain'_cons, MIN_ACTION_INTERVAL]

/-- Witness for `C6_executor_rate_limit` on a concrete executor-only trace. -/
theorem C6_executor_rate_limit_witness :
    rateLimited (runDevice freshPredictiveDevice executorOnlyTrace).2 :=
  C6_executor_rate_limit executorOnlyTrace freshPredictiveDevice rfl (by decide)

/-- **C9** (corrected).  `getSeasonMode` maps HEAT to winter and COOL to
summer; in AUTO it yields winter exactly when the 24-hour average forecast is
at most the *configured* target temperature (the comfort-band midpoint,
`this.targetTemperature`) — not the tick's user comfort target — falling back
to winter when no forecast average is available. -/
theorem C9_season_mode (c : ControllerState) (avg : Option ℚ) (a : ℚ)
    (hne1 : c.targetHeaterCoolerState ≠ some HEATER_COOLER_HEAT)
    (hne2 : c.targetHeaterCoolerState ≠ some HEATER_COOLER_COOL) :
    (getSeasonMode { c with targetHeaterCoolerState := some HEATER_COOLER_HEAT } avg =
        SeasonMode.winter) ∧
      (getSeasonMode { c with targetHeaterCoolerState := some HEATER_COOLER_COOL } avg =
        SeasonMode.summer) ∧
      (avg = some a →
        (getSeasonMode c avg = SeasonMode.winter ↔ a ≤ c.targetTemperature)) ∧
      (avg = none → getSeasonMode c avg = SeasonMode.winter) := by
  refine ⟨?_, ?_, ?_, ?_⟩
  · simp [getSeasonMode]
  · simp [getSeasonMode, HEATER_COOLER_HEAT, HEATER_COOLER_COOL]
  · intro ha
    subst ha
    simp only [getSeasonMode, if_neg hne1, if_neg hne2]
    split
    · rename_i hlt
      constructor
      · intro hc
        exact absurd hc (by decide)
      · intro hle
        linarith
    · rename_i hge
      simp only [true_iff]
      linarith [not_lt.mp hge]
  · intro ha
    subst ha
    simp only [getSeasonMode, if_neg hne1, if_neg hne2]

/-- **C9 counterexample**: with a 24 °C forecast average in AUTO mode the code
compares against the configured 23 °C target and picks summer, while the claim
(comparing against the 26 °C user comfort target) would pick winter. -/
theorem C9_counterexample :
    getSeasonMode autoController (some 24) = SeasonMode.summer ∧
      getSeasonModeClaim autoController (some 24) = SeasonMode.winter ∧
      getSeasonMode autoController (some 24) ≠ getSeasonModeClaim autoController (some 24) := by
  have h1 : getSeasonMode autoController (some 24) = SeasonMode.summer := by
    norm_num [getSeasonMode, autoController, HEATER_COOLER_HEAT, HEATER_COOLER_COOL]
  have h2 : getSeasonModeClaim autoController (some 24) = SeasonMode.winter := by
    norm_num [getSeasonModeClaim, getUserComfortPreference, autoController,
      HEATER_COOLER_HEAT, HEATER_COOLER_COOL]
  exact ⟨h1, h2, by rw [h1, h2]; decide⟩

/-- Witness for `C9_season_mode` at the concrete AUTO controller. -/
theorem C9_season_mode_witness :
    (getSeasonMode { autoController with targetHeaterCoolerState := some HEATER_COOLER_HEAT }
        (some 24) = SeasonMode.winter) ∧
      (getSeasonMode { autoController with targetHeaterCoolerState := some HEATER_COOLER_COOL }
        (some 24) = SeasonMode.summer) ∧
      (some (24 : ℚ) = some 24 →
        (getSeasonMode autoController (some 24) = SeasonMode.winter ↔
          (24 : ℚ) ≤ autoController.targetTemperature)) ∧
      (some (24 : ℚ) = none → getSeasonMode autoController (some 24) = SeasonMode.winter) :=
  C9_season_mode autoController (some 24) 24 (by decide) (by decide)

/-! ## C8: the forecast look-ahead layer -/


/-- **C8** (corrected).  The forecast layer contributes 0 exactly on the
source's skip conditions — an empty forecast array or a null outdoor
temperature; a nonempty forecast shorter than 24 samples does *not* disable
the layer (see the counterexample), though no error is raised (the embedding
is total on all context values). -/
theorem C8_forecast_layer_skip (w : ℕ → ℚ) (p : CalcParams)
    (h : p.forecastTemps = [] ∨ p.currentOutdoorTemp = none) :
    forecastAdjustmentComponent w p = 0 ∧
      (calculateSetpoint w p).components.forecastAdjustment = 0 := by
  have hmain : forecastAdjustmentComponent w p = 0 := by
    rcases h with h | h
    · simp [forecastAdjustmentComponent, h]
    · simp [forecastAdjustmentComponent, calculateForecastAdjustment, h]
  exact ⟨hmain, hmain⟩

/-- **C8 counterexample**: a 1-sample forecast (fewer than 24 samples) still
drives the forecast layer, which returns its clamp bound −1, not 0. -/
theorem C8_counterexample :
    shortForecastContext.forecastTemps.length < 24 ∧
      (calculateSetpoint (fun _ => 1) shortForecastContext).components.forecastAdjustment
        = -1 ∧
      (calculateSetpoint (fun _ => 1) shortForecastContext).components.forecastAdjustment
        ≠ 0 := by
  have hval : (calculateSetpoint (fun _ => 1)
      shortForecastContext).components.forecastAdjustment = -1 := by
    show forecastAdjustmentComponent (fun _ => 1) shortForecastContext = -1
    norm_num [forecastAdjustmentComponent, calculateForecastAdjustment,
      shortForecastContext, FORECAST_HORIZON, clampQ, max_def, min_def, List.range_succ]
  refine ⟨by norm_num [shortForecastContext], hval, by rw [hval]; norm_num⟩

/-- Witness for `C8_forecast_layer_skip` at a context with an empty forecast. -/
theorem C8_forecast_layer_skip_witness :
    forecastAdjustmentComponent (fun _ => 1) summerHotContext = 0 ∧
      (calculateSetpoint (fun _ => 1) summerHotContext).components.forecastAdjustment = 0 :=
  C8_forecast_layer_skip (fun _ => 1) summerHotContext (Or.inl rfl)

end MelPredict
